import Mathlib

/-!
Shallow embedding of `src/bonds_and_inflation.py` (a bond-portfolio
rollover simulator).

Modelling choices:
* Python `date` values are represented by their proleptic Gregorian
  ordinal (the value of Python's `date.toordinal`), an `Int`.  Adding a
  `timedelta(days = n)` is adding `n` to the ordinal, and `date`
  comparison is ordinal comparison, so the embedding is faithful.
  `ymd2ord` below computes the ordinal of a calendar date exactly as
  CPython's `datetime._ymd2ord` does; it is used to build the concrete
  dates appearing in witnesses and counterexamples.
* Python `float` amounts and rates are modelled as `ℚ` (the numbers in
  play are decimal literals and their sums/products).
* The Python code mutates `self`; the embedding passes the `Portfolio`
  state explicitly: a mutating method becomes a function returning the
  new state (paired with the return value where the method has one).
  The `rprint` calls in the source are console narration with no effect
  on the state and are not modelled.
-/

/-- Leap-year test of the proleptic Gregorian calendar
(CPython `datetime._is_leap`). -/
def isLeapYear (y : Int) : Bool :=
  y % 4 == 0 && (y % 100 != 0 || y % 400 == 0)

/-- Number of days in the months strictly before month `m` in a
non-leap year (CPython `_DAYS_BEFORE_MONTH`). -/
def daysBeforeMonth (m : Int) : Int :=
  if m ≤ 1 then 0
  else if m = 2 then 31
  else if m = 3 then 59
  else if m = 4 then 90
  else if m = 5 then 120
  else if m = 6 then 151
  else if m = 7 then 181
  else if m = 8 then 212
  else if m = 9 then 243
  else if m = 10 then 273
  else if m = 11 then 304
  else 334

/-- Proleptic Gregorian ordinal of the date `y-m-d`, with
`ymd2ord 1 1 1 = 1` (CPython `datetime._ymd2ord`, the value returned by
`date.toordinal`). -/
def ymd2ord (y m d : Int) : Int :=
  (y - 1) * 365 + (y - 1) / 4 - (y - 1) / 100 + (y - 1) / 400
    + daysBeforeMonth m + (if 2 < m ∧ isLeapYear y then 1 else 0) + d

/-- Embedding of the `TreasuryBond` dataclass: `principal` (dollars),
`issue_date` (date ordinal), `maturity_years`, `interest_rate`
(annual rate as a decimal fraction). -/
structure TreasuryBond where
  principal : ℚ
  issue_date : Int
  maturity_years : Int
  interest_rate : ℚ
  deriving DecidableEq, Repr

/-- Embedding of the `maturity_date` property:
`self.issue_date + timedelta(days = 365 * self.maturity_years)`. -/
def TreasuryBond.maturity_date (b : TreasuryBond) : Int :=
  b.issue_date + 365 * b.maturity_years

/-- Embedding of the `Portfolio` state: the ordered bond list and the
`rollover_history` list of `(date, total annual interest)` snapshots. -/
structure Portfolio where
  bonds : List TreasuryBond
  rollover_history : List (Int × ℚ)
  deriving DecidableEq, Repr

/-- Embedding of `Portfolio.__init__`: empty bond list, empty history. -/
def Portfolio.init : Portfolio :=
  { bonds := [], rollover_history := [] }

/-- Embedding of `Portfolio.add_bond`: appends a new bond, preserving
insertion order. -/
def Portfolio.add_bond (p : Portfolio) (principal : ℚ) (issue_date : Int)
    (maturity_years : Int) (interest_rate : ℚ) : Portfolio :=
  { p with bonds :=
      p.bonds ++ [TreasuryBond.mk principal issue_date maturity_years interest_rate] }

/-- Embedding of `Portfolio.get_total_debt`:
`sum(bond.principal for bond in self.bonds)`. -/
def Portfolio.get_total_debt (p : Portfolio) : ℚ :=
  (p.bonds.map (fun b => b.principal)).sum

/-- Embedding of `Portfolio.cacl_annual_interest`:
`sum(bond.principal * bond.interest_rate for bond in self.bonds)`. -/
def Portfolio.cacl_annual_interest (p : Portfolio) : ℚ :=
  (p.bonds.map (fun b => b.principal * b.interest_rate)).sum

/-- The body of the per-bond step of the rollover loop
(`simulate_rollover`, lines 86-93): a bond with
`maturity_date <= current_date` gets `issue_date := current_date` and
`interest_rate := new_rate`; any other bond is left unchanged. -/
def rollBond (current_date : Int) (new_rate : ℚ) (b : TreasuryBond) : TreasuryBond :=
  if b.maturity_date ≤ current_date then
    { b with issue_date := current_date, interest_rate := new_rate }
  else b

/-- Embedding of `Portfolio.simulate_rollover`: records
`old_interest`, rolls every mature bond in place (the loop is a
pointwise update of the list, in order), recomputes the interest,
appends `(current_date, new_interest)` to the history and returns
`new_interest - old_interest`.  The result is the new state paired with
the returned interest change.  The `rollover_count` and `total_rolled`
accumulators of the source are only printed and do not affect the state
or the return value. -/
def Portfolio.simulate_rollover (p : Portfolio) (current_date : Int)
    (new_rate : ℚ) : Portfolio × ℚ :=
  let old_interest := p.cacl_annual_interest
  let new_bonds := p.bonds.map (rollBond current_date new_rate)
  let new_interest := (new_bonds.map (fun b => b.principal * b.interest_rate)).sum
  ({ bonds := new_bonds,
     rollover_history := p.rollover_history ++ [(current_date, new_interest)] },
   new_interest - old_interest)

/-- Folding a list of `(current_date, new_rate)` calls through
`simulate_rollover`, keeping only the state (the demo driver's loop). -/
def runCalls (p : Portfolio) (calls : List (Int × ℚ)) : Portfolio :=
  calls.foldl (fun q c => (q.simulate_rollover c.1 c.2).1) p

/-- The portfolio of the end-to-end scenario of the spec: one bond with
principal 100000, issue date 2020-01-01, one year to maturity, rate 2%
(0.02 = 1/50). -/
def spec_portfolio : Portfolio :=
  Portfolio.init.add_bond 100000 (ymd2ord 2020 1 1) 1 (1/50)

/-- A portfolio with one bond issued at ordinal 0 with one year to
maturity at 2%, used for calls dated before every maturity date. -/
def young_portfolio : Portfolio :=
  Portfolio.init.add_bond 100000 0 1 (1/50)

/- ------------------------------------------------------------------
Shared helper lemmas (about the embedded operations).
------------------------------------------------------------------ -/

/-- Sums of pointwise differences over one list. -/
theorem list_sum_map_sub {α : Type} (l : List α) (f g : α → ℚ) :
    (l.map (fun x => f x - g x)).sum = (l.map f).sum - (l.map g).sum := by
  induction l with
  | nil => simp
  | cons a t ih => simp [ih]; ring

/-- A map that fixes every element of a list is the identity on it. -/
theorem list_map_eq_self {α : Type} (l : List α) (f : α → α)
    (h : ∀ x ∈ l, f x = x) : l.map f = l := by
  induction l with
  | nil => rfl
  | cons a t ih =>
      simp only [List.map_cons, h a (List.mem_cons_self a t)]
      rw [ih (fun x hx => h x (List.mem_cons_of_mem a hx))]

/-- `rollBond` leaves a bond with a strictly later maturity date unchanged. -/
theorem rollBond_of_not_mature (d : Int) (r : ℚ) (b : TreasuryBond)
    (h : d < b.maturity_date) : rollBond d r b = b := by
  unfold rollBond
  rw [if_neg (not_le.mpr h)]

/-- `rollBond` preserves `principal` and `maturity_years`. -/
theorem rollBond_frame (d : Int) (r : ℚ) (b : TreasuryBond) :
    (rollBond d r b).principal = b.principal ∧
    (rollBond d r b).maturity_years = b.maturity_years := by
  unfold rollBond
  split <;> exact ⟨rfl, rfl⟩

/-- simulate_rollover on a portfolio none of whose bonds has matured:
the bonds are unchanged, the returned delta is `0`, and the appended
snapshot records the unchanged aggregate interest. -/
theorem simulate_rollover_no_mature (p : Portfolio) (d : Int) (r : ℚ)
    (h : ∀ b ∈ p.bonds, d < b.maturity_date) :
    (p.simulate_rollover d r).1.bonds = p.bonds ∧
    (p.simulate_rollover d r).2 = 0 ∧
    (p.simulate_rollover d r).1.rollover_history
      = p.rollover_history ++ [(d, p.cacl_annual_interest)] := by
  have hmap : p.bonds.map (rollBond d r) = p.bonds :=
    list_map_eq_self _ _ (fun b hb => rollBond_of_not_mature d r b (h b hb))
  refine ⟨?_, ?_, ?_⟩
  · simp [Portfolio.simulate_rollover, hmap]
  · simp [Portfolio.simulate_rollover, hmap, Portfolio.cacl_annual_interest]
  · simp [Portfolio.simulate_rollover, hmap, Portfolio.cacl_annual_interest]

/-- Every bond of a post-rollover portfolio whose `maturity_years` were
all at least 1 has a maturity date strictly after the rollover date. -/
theorem post_rollover_not_mature (p : Portfolio) (d : Int) (r : ℚ)
    (h : ∀ b ∈ p.bonds, 1 ≤ b.maturity_years) :
    ∀ b' ∈ (p.simulate_rollover d r).1.bonds, d < b'.maturity_date := by
  intro b' hb'
  unfold Portfolio.simulate_rollover at hb'
  simp only [List.mem_map] at hb'
  obtain ⟨b, hb, hroll⟩ := hb'
  subst hroll
  unfold rollBond
  split
  case isTrue _ =>
      show d < d + 365 * b.maturity_years
      have h1 : 1 ≤ b.maturity_years := h b hb
      have h365 : (365 : Int) ≤ 365 * b.maturity_years := by
        have := mul_le_mul_of_nonneg_left h1 (show (0:Int) ≤ 365 by norm_num)
        simpa using this
      omega
  case isFalse hnot =>
      exact lt_of_not_le hnot

/- ------------------------------------------------------------------
Claim theorems.
------------------------------------------------------------------ -/

/-- C1: in `simulate_rollover(current_date, new_rate)` every bond whose
`maturity_date` is at most `current_date` (inclusive boundary) is
reissued in place — afterwards its `issue_date` is `current_date` and
its `interest_rate` is `new_rate`, with `principal` and
`maturity_years` kept — and every bond maturing strictly after
`current_date` is left completely unchanged; the bond list is
transformed pointwise, in insertion order. -/
theorem C1_mature_bonds_reissued_in_place (p : Portfolio) (current_date : Int)
    (new_rate : ℚ) :
    List.Forall₂
      (fun b b' =>
        if b.maturity_date ≤ current_date then
          b'.issue_date = current_date ∧ b'.interest_rate = new_rate ∧
          b'.principal = b.principal ∧ b'.maturity_years = b.maturity_years
        else b' = b)
      p.bonds (p.simulate_rollover current_date new_rate).1.bonds := by
  show List.Forall₂ _ p.bonds (p.bonds.map (rollBond current_date new_rate))
  rw [List.forall₂_map_right_iff, List.forall₂_same]
  intro b _
  by_cases hc : b.maturity_date ≤ current_date
  · rw [if_pos hc]
    unfold rollBond
    rw [if_pos hc]
    exact ⟨rfl, rfl, rfl, rfl⟩
  · rw [if_neg hc]
    unfold rollBond
    rw [if_neg hc]

/-- C2: `simulate_rollover` returns `new_interest - old_interest`,
where `old_interest` is the aggregate annual interest before any
mutation and `new_interest` is the aggregate annual interest of the
post-call state; the result can be positive, negative, or zero. -/
theorem C2_return_is_interest_delta (p : Portfolio) (d : Int) (r : ℚ) :
    ((p.simulate_rollover d r).2
       = (p.simulate_rollover d r).1.cacl_annual_interest - p.cacl_annual_interest)
    ∧ (∃ q e s, 0 < (Portfolio.simulate_rollover q e s).2)
    ∧ (∃ q e s, (Portfolio.simulate_rollover q e s).2 < 0)
    ∧ (∃ q e s, (Portfolio.simulate_rollover q e s).2 = 0) := by
  refine ⟨rfl, ?_, ?_, ?_⟩
  · exact ⟨Portfolio.mk [TreasuryBond.mk 1 0 1 0] [], 365, 1,
      by norm_num [Portfolio.simulate_rollover, Portfolio.cacl_annual_interest,
        rollBond, TreasuryBond.maturity_date]⟩
  · exact ⟨Portfolio.mk [TreasuryBond.mk 1 0 1 1] [], 365, 0,
      by norm_num [Portfolio.simulate_rollover, Portfolio.cacl_annual_interest,
        rollBond, TreasuryBond.maturity_date]⟩
  · exact ⟨Portfolio.init, 0, 0,
      by norm_num [Portfolio.init, Portfolio.simulate_rollover,
        Portfolio.cacl_annual_interest]⟩

/-- C3: each `simulate_rollover` call appends exactly one entry
`(current_date, new_interest)` to `rollover_history` and leaves the
existing entries untouched; `add_bond` does not touch the history;
after a sequence of `N` calls the history has grown by exactly `N`
entries, and the old history is still an unmodified initial segment. -/
theorem C3_history_one_append_per_call (p : Portfolio) (d : Int) (r pr ir : ℚ)
    (idt my : Int) (calls : List (Int × ℚ)) :
    ((p.simulate_rollover d r).1.rollover_history
       = p.rollover_history ++ [(d, (p.simulate_rollover d r).1.cacl_annual_interest)])
    ∧ ((p.add_bond pr idt my ir).rollover_history = p.rollover_history)
    ∧ ((runCalls p calls).rollover_history.length
       = p.rollover_history.length + calls.length)
    ∧ (∃ t, (runCalls p calls).rollover_history = p.rollover_history ++ t) := by
  refine ⟨rfl, rfl, ?_, ?_⟩
  · induction calls generalizing p with
    | nil => simp [runCalls]
    | cons c cs ih =>
        have h1 : runCalls p (c :: cs)
            = runCalls ((p.simulate_rollover c.1 c.2).1) cs := rfl
        rw [h1, ih]
        simp [Portfolio.simulate_rollover]
        omega
  · induction calls generalizing p with
    | nil => exact ⟨[], by simp [runCalls]⟩
    | cons c cs ih =>
        have h1 : runCalls p (c :: cs)
            = runCalls ((p.simulate_rollover c.1 c.2).1) cs := rfl
        obtain ⟨t, ht⟩ := ih ((p.simulate_rollover c.1 c.2).1)
        refine ⟨((p.simulate_rollover c.1 c.2).1.rollover_history.drop
          p.rollover_history.length) ++ t, ?_⟩
        rw [h1, ht]
        simp [Portfolio.simulate_rollover]

/-- C7: the derived `maturity_date` equals
`issue_date + 365 * maturity_years` days for every bond (fixed 365-day
year); in particular one year after 2020-01-01 is 2020-12-31, not the
calendar-accurate 2021-01-01 (leap years are ignored). -/
theorem C7_maturity_date_formula (b : TreasuryBond) :
    (b.maturity_date = b.issue_date + 365 * b.maturity_years)
    ∧ ((TreasuryBond.mk 0 (ymd2ord 2020 1 1) 1 0).maturity_date
         = ymd2ord 2020 12 31)
    ∧ (ymd2ord 2020 12 31 ≠ ymd2ord 2021 1 1) :=
  ⟨rfl, by decide, by decide⟩

/-- C8: `get_total_debt` is the sum of the principals and
`cacl_annual_interest` the sum of `principal * interest_rate` over the
bonds, in insertion order; both are `0` on a portfolio with no bonds
(a defined value, not an error).  Both are pure: in this state-passing
embedding they return a value and no new state. -/
theorem C8_aggregates_are_sums (p : Portfolio) (hist : List (Int × ℚ)) :
    (p.get_total_debt = (p.bonds.map fun b => b.principal).sum)
    ∧ (p.cacl_annual_interest
        = (p.bonds.map fun b => b.principal * b.interest_rate).sum)
    ∧ ((Portfolio.mk [] hist).get_total_debt = 0)
    ∧ ((Portfolio.mk [] hist).cacl_annual_interest = 0) :=
  ⟨rfl, rfl, by simp [Portfolio.get_total_debt],
    by simp [Portfolio.cacl_annual_interest]⟩

/-- C4 counterexample: on the spec's one-bond portfolio the bond's
maturity date is 2020-12-31 (365 days after 2020-01-01), which is at
most 2021-01-01, so `simulate_rollover(2021-01-01, 0.025)` rolls the
bond and returns 500, not the claimed 0. -/
theorem C4_counterexample :
    ((TreasuryBond.mk 100000 (ymd2ord 2020 1 1) 1 (1/50)).maturity_date
        = ymd2ord 2020 12 31)
    ∧ ((TreasuryBond.mk 100000 (ymd2ord 2020 1 1) 1 (1/50)).maturity_date
        ≤ ymd2ord 2021 1 1)
    ∧ ((spec_portfolio.simulate_rollover (ymd2ord 2021 1 1) (1/40)).2 = 500)
    ∧ ((500 : ℚ) ≠ 0) := by
  refine ⟨by decide, by decide, ?_, by norm_num⟩
  norm_num [spec_portfolio, Portfolio.init, Portfolio.add_bond,
    Portfolio.simulate_rollover, Portfolio.cacl_annual_interest, rollBond,
    TreasuryBond.maturity_date, ymd2ord, isLeapYear, daysBeforeMonth]

/-- C4 (amended): with one bond `principal = 100000`,
`issue_date = 2020-01-01`, `maturity_years = 1`, `interest_rate = 0.02`,
the call `simulate_rollover(2021-01-01, 0.025)` rolls the bond (its
maturity date 2020-12-31 has passed): it returns `500`, appends
`(2021-01-01, 2500)` to the history, and the bond is reissued with
issue date 2021-01-01 and rate 0.025. -/
theorem C4_amended_scenario :
    ((spec_portfolio.simulate_rollover (ymd2ord 2021 1 1) (1/40)).2 = 500)
    ∧ ((spec_portfolio.simulate_rollover (ymd2ord 2021 1 1) (1/40)).1.rollover_history
        = [(ymd2ord 2021 1 1, 2500)])
    ∧ ((spec_portfolio.simulate_rollover (ymd2ord 2021 1 1) (1/40)).1.bonds
        = [TreasuryBond.mk 100000 (ymd2ord 2021 1 1) 1 (1/40)]) := by
  refine ⟨?_, ?_, ?_⟩ <;>
    norm_num [spec_portfolio, Portfolio.init, Portfolio.add_bond,
      Portfolio.simulate_rollover, Portfolio.cacl_annual_interest, rollBond,
      TreasuryBond.maturity_date, ymd2ord, isLeapYear, daysBeforeMonth]

/-- C5 counterexample: a portfolio holding one bond with annual
interest 2000 and maturity date strictly after the call date: the call
returns `0`, while the claim says it returns `0 - old_interest = -2000`. -/
theorem C5_counterexample :
    (young_portfolio.bonds = [TreasuryBond.mk 100000 0 1 (1/50)])
    ∧ ((0 : Int) < (TreasuryBond.mk 100000 0 1 (1/50)).maturity_date)
    ∧ ((young_portfolio.simulate_rollover 0 (1/40)).2 = 0)
    ∧ (0 - young_portfolio.cacl_annual_interest = -2000)
    ∧ ((0 : ℚ) ≠ -2000) := by
  refine ⟨rfl, by decide, ?_, ?_, by norm_num⟩ <;>
    norm_num [young_portfolio, Portfolio.init, Portfolio.add_bond,
      Portfolio.simulate_rollover, Portfolio.cacl_annual_interest, rollBond,
      TreasuryBond.maturity_date]

/-- C5 (amended): a call dated strictly before every bond's maturity
date mutates no bond, returns `0` (since the aggregate interest is
unchanged, the delta `new_interest - old_interest` is `0`, which equals
`-old_interest` only when `old_interest = 0`), and still appends one
history entry `(current_date, old_interest)`; on an empty bond
collection the appended entry is `(current_date, 0)` and the returned
value is `0 = 0 - old_interest`. -/
theorem C5_immature_call_is_noop (p : Portfolio) (d : Int) (r : ℚ)
    (h : ∀ b ∈ p.bonds, d < b.maturity_date) :
    ((p.simulate_rollover d r).1.bonds = p.bonds)
    ∧ ((p.simulate_rollover d r).2 = 0)
    ∧ ((p.simulate_rollover d r).1.rollover_history
        = p.rollover_history ++ [(d, p.cacl_annual_interest)])
    ∧ (p.bonds = [] →
        (p.simulate_rollover d r).2 = 0 - p.cacl_annual_interest
        ∧ (p.simulate_rollover d r).1.rollover_history
            = p.rollover_history ++ [(d, 0)]) := by
  obtain ⟨h1, h2, h3⟩ := simulate_rollover_no_mature p d r h
  refine ⟨h1, h2, h3, ?_⟩
  intro hnil
  have hz : p.cacl_annual_interest = 0 := by
    simp [Portfolio.cacl_annual_interest, hnil]
  constructor
  · rw [h2, hz]
    ring
  · rw [h3, hz]

/-- C5 witness: the amended statement instantiated on a concrete
portfolio whose single bond matures strictly after the call date. -/
theorem C5_immature_call_is_noop_witness :
    ((young_portfolio.simulate_rollover 0 (1/40)).1.bonds = young_portfolio.bonds)
    ∧ ((young_portfolio.simulate_rollover 0 (1/40)).2 = 0)
    ∧ ((young_portfolio.simulate_rollover 0 (1/40)).1.rollover_history
        = young_portfolio.rollover_history
          ++ [(0, young_portfolio.cacl_annual_interest)])
    ∧ (young_portfolio.bonds = [] →
        (young_portfolio.simulate_rollover 0 (1/40)).2
            = 0 - young_portfolio.cacl_annual_interest
        ∧ (young_portfolio.simulate_rollover 0 (1/40)).1.rollover_history
            = young_portfolio.rollover_history ++ [(0, 0)]) :=
  C5_immature_call_is_noop young_portfolio 0 (1/40) (by decide)

/-- C6: when every bond has `maturity_years >= 1`, a second
`simulate_rollover` with the same `current_date` (and any new rate)
re-rolls nothing — each bond rolled by the first call now has maturity
date `current_date + 365 * maturity_years > current_date` — so it
returns a delta of `0` and mutates no bond, but still appends one new
history entry. -/
theorem C6_same_date_second_call_noop (p : Portfolio) (d : Int) (r1 r2 : ℚ)
    (h : ∀ b ∈ p.bonds, 1 ≤ b.maturity_years) :
    ((((p.simulate_rollover d r1).1).simulate_rollover d r2).2 = 0)
    ∧ ((((p.simulate_rollover d r1).1).simulate_rollover d r2).1.bonds
        = (p.simulate_rollover d r1).1.bonds)
    ∧ ((((p.simulate_rollover d r1).1).simulate_rollover d r2).1.rollover_history
        = (p.simulate_rollover d r1).1.rollover_history
          ++ [(d, (p.simulate_rollover d r1).1.cacl_annual_interest)]) := by
  have h2 := post_rollover_not_mature p d r1 h
  obtain ⟨ha, hb, hc⟩ :=
    simulate_rollover_no_mature (p.simulate_rollover d r1).1 d r2 h2
  exact ⟨hb, ha, hc⟩

/-- C6 witness: the statement instantiated on the spec's one-bond
portfolio (whose bond has `maturity_years = 1`), rolled twice on
2021-01-01. -/
theorem C6_same_date_second_call_noop_witness :
    ((((spec_portfolio.simulate_rollover (ymd2ord 2021 1 1) (1/40)).1).simulate_rollover
        (ymd2ord 2021 1 1) (3/100)).2 = 0)
    ∧ ((((spec_portfolio.simulate_rollover (ymd2ord 2021 1 1) (1/40)).1).simulate_rollover
        (ymd2ord 2021 1 1) (3/100)).1.bonds
        = (spec_portfolio.simulate_rollover (ymd2ord 2021 1 1) (1/40)).1.bonds)
    ∧ ((((spec_portfolio.simulate_rollover (ymd2ord 2021 1 1) (1/40)).1).simulate_rollover
        (ymd2ord 2021 1 1) (3/100)).1.rollover_history
        = (spec_portfolio.simulate_rollover (ymd2ord 2021 1 1) (1/40)).1.rollover_history
          ++ [(ymd2ord 2021 1 1,
               (spec_portfolio.simulate_rollover (ymd2ord 2021 1 1) (1/40)).1.cacl_annual_interest)]) :=
  C6_same_date_second_call_noop spec_portfolio (ymd2ord 2021 1 1) (1/40) (3/100)
    (by decide)

/-- C9: `simulate_rollover` never changes any bond's `principal` or
`maturity_years`, never adds or removes a bond, and preserves insertion
order (position `i` before maps to position `i` after); consequently
`get_total_debt` is identical before and after the call. -/
theorem C9_rollover_frame (p : Portfolio) (d : Int) (r : ℚ) (i : ℕ) :
    ((p.simulate_rollover d r).1.bonds.length = p.bonds.length)
    ∧ ((p.simulate_rollover d r).1.bonds[i]?.map (fun b => b.principal)
        = p.bonds[i]?.map (fun b => b.principal))
    ∧ ((p.simulate_rollover d r).1.bonds[i]?.map (fun b => b.maturity_years)
        = p.bonds[i]?.map (fun b => b.maturity_years))
    ∧ ((p.simulate_rollover d r).1.get_total_debt = p.get_total_debt) := by
  have hb : (p.simulate_rollover d r).1.bonds = p.bonds.map (rollBond d r) := rfl
  have hcomp : ((fun b => b.principal) ∘ rollBond d r)
      = (fun b : TreasuryBond => b.principal) := by
    funext b
    exact (rollBond_frame d r b).1
  refine ⟨?_, ?_, ?_, ?_⟩
  · rw [hb, List.length_map]
  · rw [hb, List.getElem?_map]
    cases hq : p.bonds[i]? with
    | none => rfl
    | some b => simp [(rollBond_frame d r b).1]
  · rw [hb, List.getElem?_map]
    cases hq : p.bonds[i]? with
    | none => rfl
    | some b => simp [(rollBond_frame d r b).2]
  · show Portfolio.get_total_debt _ = Portfolio.get_total_debt p
    unfold Portfolio.get_total_debt
    rw [hb, List.map_map, hcomp]

/-- C10: the value returned by `simulate_rollover(d, r)` equals the sum
over exactly the bonds mature at call entry of
`principal * (r - previous rate)`; hence with non-negative principals
and `r` at least every rolled bond's prior rate, the delta is
non-negative. -/
theorem C10_delta_decomposition (p : Portfolio) (d : Int) (r : ℚ) :
    ((p.simulate_rollover d r).2
      = (p.bonds.map (fun b =>
          if b.maturity_date ≤ d then b.principal * (r - b.interest_rate)
          else 0)).sum)
    ∧ ((∀ b ∈ p.bonds, 0 ≤ b.principal ∧ (b.maturity_date ≤ d → b.interest_rate ≤ r))
        → 0 ≤ (p.simulate_rollover d r).2) := by
  have key : (p.simulate_rollover d r).2
      = (p.bonds.map (fun b =>
          if b.maturity_date ≤ d then b.principal * (r - b.interest_rate)
          else 0)).sum := by
    have h1 : (p.simulate_rollover d r).2
        = ((p.bonds.map (rollBond d r)).map
            (fun b => b.principal * b.interest_rate)).sum
          - (p.bonds.map (fun b => b.principal * b.interest_rate)).sum := rfl
    rw [h1, List.map_map, ← list_sum_map_sub]
    congr 1
    apply List.map_congr_left
    intro b _
    show (rollBond d r b).principal * (rollBond d r b).interest_rate
        - b.principal * b.interest_rate = _
    by_cases hc : b.maturity_date ≤ d
    · rw [if_pos hc]
      unfold rollBond
      rw [if_pos hc]
      show b.principal * r - b.principal * b.interest_rate = _
      ring
    · rw [if_neg hc]
      unfold rollBond
      rw [if_neg hc]
      ring
  refine ⟨key, ?_⟩
  intro h
  rw [key]
  apply List.sum_nonneg
  intro x hx
  simp only [List.mem_map] at hx
  obtain ⟨b, hbm, rfl⟩ := hx
  by_cases hc : b.maturity_date ≤ d
  · rw [if_pos hc]
    exact mul_nonneg (h b hbm).1 (sub_nonneg.mpr ((h b hbm).2 hc))
  · rw [if_neg hc]

/-- C10 witness: the decomposition and the sign statement instantiated
on the spec's one-bond portfolio rolled from 2% up to 2.5%. -/
theorem C10_delta_decomposition_witness :
    ((spec_portfolio.simulate_rollover (ymd2ord 2021 1 1) (1/40)).2
      = (spec_portfolio.bonds.map (fun b =>
          if b.maturity_date ≤ ymd2ord 2021 1 1 then
            b.principal * ((1/40) - b.interest_rate)
          else 0)).sum)
    ∧ (0 ≤ (spec_portfolio.simulate_rollover (ymd2ord 2021 1 1) (1/40)).2) :=
  ⟨(C10_delta_decomposition spec_portfolio (ymd2ord 2021 1 1) (1/40)).1,
   (C10_delta_decomposition spec_portfolio (ymd2ord 2021 1 1) (1/40)).2 (by
     intro b hb
     have hb' : b = TreasuryBond.mk 100000 (ymd2ord 2020 1 1) 1 (1/50) := by
       simpa [spec_portfolio, Portfolio.init, Portfolio.add_bond] using hb
     subst hb'
     exact ⟨by norm_num, fun _ => by norm_num⟩)⟩
